import Mathlib

/-!
# Weather dashboard (`src/App.js`): state model and properties

The component `App` keeps its state in React hooks and talks to three outside
collaborators: the weather service (through `axios.get`), `localStorage`
(key `favorites`) and the cookie jar (cookie `unit`).  Each event handler is
embedded as a function from the state the handler closes over, and the
outside world, to the state after the queued updates have been applied.
The outside world carries a trace of every call made to a collaborator, so
that "no request is made" and "exactly two writes" are statements about values.

Conventions of the embedding:

* JavaScript values are the values a JSON text can denote, plus `undefined`.
  Objects and arrays carry a reference number: `===` on them is identity.
  Numbers are the finite ones, as rationals.
* Strings are sequences of Unicode scalar values.
* The cookie jar holds text.  What `useCookies` hands over for a cookie is what
  the cookie library reads from that text (its JSON value when the library
  parses it, the text otherwise); the library is not part of the source, so
  its reading is an argument, and the `unit` hook holds a JavaScript value.
* The conversion to text of a value other than a string, inside a template
  literal, is an argument as well; it may throw.
* A handler that can throw returns `Except JSError _`; every throw in the
  handlers below happens before the first state update of the handler.
* `JSON.stringify`, `JSON.parse` and the weather service are arguments.
* A "list of snapshots" is a favourites list without an `undefined` or `null`
  entry (`NoNullish`).  The handlers only ever append a truthy value, and the
  render reads `fav.name` of every entry (line 178), so the buttons are never
  shown over any other list.
-/

namespace Wetherapp

/-! ## JavaScript values -/

/-- JavaScript values: what `response.data` and `JSON.parse` can produce. -/
inductive JSValue where
  | undefined
  | null
  | bool (b : Bool)
  | num (q : ℚ)
  | str (s : String)
  | arr (ref : Nat) (elems : List JSValue)
  | obj (ref : Nat) (fields : List (String × JSValue))

/-- Thrown values, keyed by the constructor that made them. -/
inductive JSError where
  | error (message : String)
  | typeError (message : String)
  | syntaxError (message : String)
  | axiosError (message : String)
deriving DecidableEq

/-- ToBoolean: `undefined`, `null`, `false`, `0` and `""` are falsy. -/
def truthy : JSValue → Bool
  | .undefined => false
  | .null => false
  | .bool b => b
  | .num q => decide (q ≠ 0)
  | .str s => decide (s ≠ "")
  | .arr _ _ => true
  | .obj _ _ => true

/-- The operator `===`: primitives by value, objects and arrays by identity. -/
def strictEquals : JSValue → JSValue → Bool
  | .undefined, .undefined => true
  | .null, .null => true
  | .bool a, .bool b => decide (a = b)
  | .num a, .num b => decide (a = b)
  | .str a, .str b => decide (a = b)
  | .arr r _, .arr r' _ => decide (r = r')
  | .obj r _, .obj r' _ => decide (r = r')
  | _, _ => false

/-- Property read `v.key`, for the keys this program reads (`name`, `sys`,
`country`, `main`, `temp`, `unit`): a `TypeError` on `undefined` and `null`,
the field of an object when it has one, `undefined` in every other case.
A field list holds each key once. -/
def getProp (v : JSValue) (key : String) : Except JSError JSValue :=
  match v with
  | .undefined => .error (.typeError "Cannot read properties of undefined")
  | .null => .error (.typeError "Cannot read properties of null")
  | .obj _ fields => .ok ((fields.lookup key).getD .undefined)
  | _ => .ok .undefined

/-- The method `Array.prototype.some`, with a callback that may throw. -/
def arraySome (p : JSValue → Except JSError Bool) : List JSValue → Except JSError Bool
  | [] => .ok false
  | x :: xs =>
    match p x with
    | .error err => .error err
    | .ok true => .ok true
    | .ok false => arraySome p xs

/-- The method `Array.prototype.filter`, with a callback that may throw. -/
def arrayFilter (p : JSValue → Except JSError Bool) :
    List JSValue → Except JSError (List JSValue)
  | [] => .ok []
  | x :: xs =>
    match p x with
    | .error err => .error err
    | .ok keep =>
      match arrayFilter p xs with
      | .error err => .error err
      | .ok rest => .ok (if keep then x :: rest else rest)

/-! ## Strings -/

/-- Code points removed by `String.prototype.trim`: WhiteSpace and LineTerminator. -/
def isJSWhiteSpace (c : Char) : Bool :=
  [9, 10, 11, 12, 13, 32, 160, 5760, 8232, 8233, 8239, 8287, 12288, 65279].contains c.toNat
    || (8192 ≤ c.toNat && c.toNat ≤ 8202)

/-- The method `String.prototype.trim`. -/
def jsTrim (s : String) : String :=
  String.mk ((s.data.dropWhile isJSWhiteSpace).reverse.dropWhile isJSWhiteSpace).reverse

/-- Characters `encodeURIComponent` leaves alone: `A-Z a-z 0-9 - _ . ! ~ * ' ( )`. -/
def isURIUnreserved (c : Char) : Bool :=
  c.isAlphanum || [45, 95, 46, 33, 126, 42, 39, 40, 41].contains c.toNat

/-- One upper-case hexadecimal digit. -/
def hexDigit (n : Nat) : Char :=
  if n < 10 then Char.ofNat (48 + n) else Char.ofNat (55 + n)

/-- The escape `%XX` of one octet. -/
def percentByte (b : Nat) : List Char :=
  ['%', hexDigit (b / 16), hexDigit (b % 16)]

/-- The UTF-8 octets of a code point. -/
def utf8Bytes (n : Nat) : List Nat :=
  if n < 128 then [n]
  else if n < 2048 then [192 + n / 64, 128 + n % 64]
  else if n < 65536 then [224 + n / 4096, 128 + n / 64 % 64, 128 + n % 64]
  else [240 + n / 262144, 128 + n / 4096 % 64, 128 + n / 64 % 64, 128 + n % 64]

/-- The global function `encodeURIComponent`. -/
def encodeURIComponent (s : String) : String :=
  String.mk (s.data.flatMap fun c =>
    if isURIUnreserved c then [c] else (utf8Bytes c.toNat).flatMap percentByte)

/-! ## The outside world -/

/-- One call to a collaborator. -/
inductive Effect where
  | httpGet (url : String)
  | setItem (key value : String)
  | removeItem (key : String)
  | setCookie (name value path : String)
deriving DecidableEq

/-- Browser storage, the cookie jar, and the calls made so far (oldest first). -/
structure Env where
  localStorage : String → Option String
  cookies : String → Option String
  trace : List Effect

/-- The call `localStorage.setItem(key, value)`. -/
def Env.setItem (e : Env) (key value : String) : Env :=
  { e with
    localStorage := fun k => if k = key then some value else e.localStorage k
    trace := e.trace ++ [Effect.setItem key value] }

/-- The call `localStorage.removeItem(key)`. -/
def Env.removeItem (e : Env) (key : String) : Env :=
  { e with
    localStorage := fun k => if k = key then none else e.localStorage k
    trace := e.trace ++ [Effect.removeItem key] }

/-- The call `setCookie(name, value, { path })` of `useCookies`. -/
def Env.setCookie (e : Env) (name value path : String) : Env :=
  { e with
    cookies := fun k => if k = name then some value else e.cookies k
    trace := e.trace ++ [Effect.setCookie name value path] }

/-! ## The component -/

/-- The hooks of `App` (lines 36-43). -/
structure AppState where
  city : String
  weather : JSValue
  favorites : List JSValue
  unit : JSValue
  errorMessage : String
  openSnackbar : Bool
  loading : Bool

/-- The constant `API_KEY` of `fetchWeatherData`. -/
def API_KEY : String := "6b0731e88a8f671d3a32faa5e8a27476"

/-- The text a template literal puts in place of `${v}`: a string as it is, any
other value as the conversion `toText` of the language gives it. -/
def templateText (toText : JSValue → Except JSError String) :
    JSValue → Except JSError String
  | .str s => .ok s
  | v => toText v

/-- The constant `URL` of `fetchWeatherData` (lines 21-23), given the text of the unit. -/
def weatherURL (city unit : String) : String :=
  "https://api.openweathermap.org/data/2.5/weather?q=" ++ encodeURIComponent city
    ++ "&appid=" ++ API_KEY ++ "&units=" ++ unit

/-- Function `fetchWeatherData` (lines 19-33): one GET; the body on success, and a
fresh `Error` in place of whatever `axios.get` rejected with.  The template
literal of lines 21-23 is evaluated before the `try`: when the unit cannot be
turned into text, the promise rejects with that error and no request is made. -/
def fetchWeatherData (toText : JSValue → Except JSError String)
    (axiosGet : String → Except JSError JSValue) (city : String) (unit : JSValue)
    (e : Env) : Except JSError JSValue × Env :=
  match templateText toText unit with
  | .error err => (.error err, e)
  | .ok unitText =>
    let URL := weatherURL city unitText
    let e1 := { e with trace := e.trace ++ [Effect.httpGet URL] }
    match axiosGet URL with
    | .ok data => (.ok data, e1)
    | .error _ => (.error (.error "City not found or API error"), e1)

/-- The value `cookies.unit` that `useCookies` hands over (line 39): `undefined`
when there is no such cookie, else what the library reads from its text. -/
def cookiesUnit (readCookie : String → JSValue) (e : Env) : JSValue :=
  match e.cookies "unit" with
  | some text => readCookie text
  | none => .undefined

/-- Initial value of the `unit` hook (line 40): `cookies.unit || "metric"`. -/
def initialUnit (readCookie : String → JSValue) (e : Env) : JSValue :=
  if truthy (cookiesUnit readCookie e) then cookiesUnit readCookie e else .str "metric"

/-- Component `App` at its first render (lines 36-43). -/
def App (readCookie : String → JSValue) (e : Env) : AppState :=
  { city := ""
    weather := .null
    favorites := []
    unit := initialUnit readCookie e
    errorMessage := ""
    openSnackbar := false
    loading := false }

/-- The value `JSON.parse(localStorage.getItem("favorites")) || []` (line 47),
as the list the `favorites` hook is set to.  A missing key reads as `null`,
which `JSON.parse` turns into `null`.  A truthy value that is not an array is
stored by `setFavorites` and makes the next render throw at `favorites.map`. -/
def loadFavorites (parse : String → Except JSError JSValue) (e : Env) :
    Except JSError (List JSValue) :=
  let parsed : Except JSError JSValue :=
    match e.localStorage "favorites" with
    | none => .ok .null
    | some text => parse text
  match parsed with
  | .error err => .error err
  | .ok v =>
    if truthy v then
      match v with
      | .arr _ elems => .ok elems
      | _ => .error (.typeError "favorites.map is not a function")
    else .ok []

/-- The mount effect (lines 46-49). -/
def mountEffect (parse : String → Except JSError JSValue) (s : AppState) (e : Env) :
    Except JSError (AppState × Env) :=
  match loadFavorites parse e with
  | .error err => .error err
  | .ok storedFavorites => .ok ({ s with favorites := storedFavorites }, e)

/-- Handler `handleSearch` (lines 52-70), from the click to the end of `finally`. -/
def handleSearch (toText : JSValue → Except JSError String)
    (axiosGet : String → Except JSError JSValue) (s : AppState) (e : Env) :
    Except JSError (AppState × Env) :=
  if truthy (.str (jsTrim s.city)) = false then
    .ok ({ s with errorMessage := "Please enter a city name", openSnackbar := true }, e)
  else
    let s1 := { s with loading := true }
    let (result, e1) := fetchWeatherData toText axiosGet s.city s.unit e
    let s2 :=
      match result with
      | .ok data => { s1 with weather := data, errorMessage := "" }
      | .error _ =>
        { s1 with errorMessage := "City not found. Please try again.", openSnackbar := true }
    .ok ({ s2 with loading := false }, e1)

/-- Handler `toggleUnit` (lines 73-77). -/
def toggleUnit (s : AppState) (e : Env) : AppState × Env :=
  let newUnit := if strictEquals s.unit (.str "metric") then "imperial" else "metric"
  ({ s with unit := .str newUnit }, e.setCookie "unit" newUnit "/")

/-- The callback `(fav) => fav.name === weather.name` (line 81). -/
def sameName (weather fav : JSValue) : Except JSError Bool :=
  match getProp fav "name" with
  | .error err => .error err
  | .ok a =>
    match getProp weather "name" with
    | .error err => .error err
    | .ok b => .ok (strictEquals a b)

/-- Handler `handleAddToFavorites` (lines 80-86). -/
def handleAddToFavorites (stringify : List JSValue → String) (s : AppState) (e : Env) :
    Except JSError (AppState × Env) :=
  if truthy s.weather then
    match arraySome (sameName s.weather) s.favorites with
    | .error err => .error err
    | .ok true => .ok (s, e)
    | .ok false =>
      let updatedFavorites := s.favorites ++ [s.weather]
      .ok ({ s with favorites := updatedFavorites },
        e.setItem "favorites" (stringify updatedFavorites))
  else .ok (s, e)

/-- The callback `(fav) => fav.name !== cityName` (line 90). -/
def otherName (cityName fav : JSValue) : Except JSError Bool :=
  match getProp fav "name" with
  | .error err => .error err
  | .ok a => .ok (!strictEquals a cityName)

/-- Handler `handleRemoveFromFavorites` (lines 89-93). -/
def handleRemoveFromFavorites (stringify : List JSValue → String) (cityName : JSValue)
    (s : AppState) (e : Env) : Except JSError (AppState × Env) :=
  match arrayFilter (otherName cityName) s.favorites with
  | .error err => .error err
  | .ok updatedFavorites =>
    .ok ({ s with favorites := updatedFavorites },
      e.setItem "favorites" (stringify updatedFavorites))

/-- Handler `handleClearFavorites` (lines 96-99). -/
def handleClearFavorites (s : AppState) (e : Env) : AppState × Env :=
  ({ s with favorites := [] }, e.removeItem "favorites")

/-! ## Vocabulary of the properties -/

/-- The values on which a property read throws. -/
def isNullish : JSValue → Bool
  | .undefined => true
  | .null => true
  | _ => false

/-- The value of `v.name` where the read does not throw. -/
def nameOf (v : JSValue) : JSValue :=
  match getProp v "name" with
  | .ok a => a
  | .error _ => .undefined

/-- No entry is `undefined` or `null`: every `fav.name` can be read. -/
def NoNullish (l : List JSValue) : Prop :=
  ∀ fav ∈ l, isNullish fav = false

/-- No two entries have `===` names. -/
def DistinctNames (l : List JSValue) : Prop :=
  l.Pairwise fun a b => strictEquals (nameOf a) (nameOf b) = false

/-- Storing `l` and reading the text back gives an array with the entries of `l`. -/
def RoundTrips (parse : String → Except JSError JSValue) (stringify : List JSValue → String)
    (l : List JSValue) : Prop :=
  ∃ r, parse (stringify l) = .ok (.arr r l)

/-- Lists the `favorites` hook can hold after any number of clicks on the three
favourites buttons, starting from the empty list; between clicks the other
hooks (the current snapshot among them) and the outside world are arbitrary. -/
inductive FavoritesReachable (stringify : List JSValue → String) : List JSValue → Prop
  | initial : FavoritesReachable stringify []
  | add {s s1 : AppState} {e e1 : Env} :
      FavoritesReachable stringify s.favorites →
      handleAddToFavorites stringify s e = .ok (s1, e1) →
      FavoritesReachable stringify s1.favorites
  | remove {cityName : JSValue} {s s1 : AppState} {e e1 : Env} :
      FavoritesReachable stringify s.favorites →
      handleRemoveFromFavorites stringify cityName s e = .ok (s1, e1) →
      FavoritesReachable stringify s1.favorites
  | clear {s : AppState} {e : Env} :
      FavoritesReachable stringify s.favorites →
      FavoritesReachable stringify (handleClearFavorites s e).1.favorites

/-! ## Sample data -/

/-- The body of the specification's example: London, GB, 15 degrees. -/
def london : JSValue :=
  .obj 1 [("name", .str "London"), ("sys", .obj 2 [("country", .str "GB")]),
    ("main", .obj 3 [("temp", .num 15)])]

/-- A later response for the same place: other objects, other temperature. -/
def londonAgain : JSValue :=
  .obj 4 [("name", .str "London"), ("sys", .obj 5 [("country", .str "GB")]),
    ("main", .obj 6 [("temp", .num 17)])]

/-- A response for another place. -/
def paris : JSValue :=
  .obj 7 [("name", .str "Paris"), ("sys", .obj 8 [("country", .str "FR")]),
    ("main", .obj 9 [("temp", .num 21)])]

/-- A stand-in for `JSON.stringify` on these samples: the names, in order. -/
def sampleStringify (l : List JSValue) : String :=
  String.join (l.map fun v =>
    match nameOf v with
    | .str n => n ++ ";"
    | _ => "?;")

/-- An outside world with nothing stored and no call made. -/
def emptyEnv : Env :=
  { localStorage := fun _ => none, cookies := fun _ => none, trace := [] }

/-- A state showing `londonAgain` with `london` and `paris` among the favourites. -/
def sampleState : AppState :=
  { city := "London", weather := londonAgain, favorites := [london, paris], unit := .str "metric"
    errorMessage := "", openSnackbar := false, loading := false }

/-- A stand-in for `JSON.parse` that reads back what `sampleStringify` wrote for
the lists of the examples. -/
def sampleParse (text : String) : Except JSError JSValue :=
  if text = "" then .ok (.arr 0 [])
  else if text = "London;" then .ok (.arr 0 [london])
  else if text = "London;Paris;" then .ok (.arr 0 [london, paris])
  else .error (.syntaxError "Unexpected token")

/-- An outside world where the favourite `London` is stored. -/
def storedEnv : Env :=
  { localStorage := fun k => if k = "favorites" then some "London;" else none
    cookies := fun _ => none, trace := [] }

/-- A state showing `paris` with `london` as the only favourite. -/
def parisState : AppState :=
  { city := "Paris", weather := paris, favorites := [london], unit := .str "metric"
    errorMessage := "", openSnackbar := false, loading := false }

/-- A state with three spaces typed in the search field. -/
def blankState : AppState :=
  { city := "   ", weather := london, favorites := [london], unit := .str "metric"
    errorMessage := "", openSnackbar := false, loading := false }

/-- A state with `London` typed in the search field and nothing fetched yet. -/
def typedState : AppState :=
  { city := "London", weather := .null, favorites := [], unit := .str "metric"
    errorMessage := "", openSnackbar := false, loading := false }

/-- A service that is down. -/
def failingService (_ : String) : Except JSError JSValue :=
  .error (.axiosError "Request failed with status code 404")

/-- A service that answers the `London` request, in either unit, with `london`. -/
def londonService (url : String) : Except JSError JSValue :=
  if url = weatherURL "London" "metric" ∨ url = weatherURL "London" "imperial" then .ok london
  else .error (.axiosError "Request failed with status code 404")

/-- A body with a success status that is not a weather object. -/
def malformedBody : JSValue :=
  .obj 10 [("cod", .num 200), ("message", .str "internal")]

/-- A service that answers every request with `malformedBody`. -/
def malformedService (_ : String) : Except JSError JSValue :=
  .ok malformedBody

/-- A stand-in for the conversion to text of values other than strings. -/
def sampleToText : JSValue → Except JSError String
  | .undefined => .ok "undefined"
  | .null => .ok "null"
  | .bool true => .ok "true"
  | .bool false => .ok "false"
  | _ => .ok "[object Object]"

/-- A cookie reading that parses the texts `0`, `false`, `null` and a quoted
`imperial` as JSON and hands over any other text as it is. -/
def sampleReadCookie (text : String) : JSValue :=
  if text = "0" then .num 0
  else if text = "false" then .bool false
  else if text = "null" then .null
  else if text = "\x22imperial\x22" then .str "imperial"
  else .str text

/-- An outside world whose cookie jar holds the cookie `unit` with the given text. -/
def unitCookieEnv (text : String) : Env :=
  { localStorage := fun _ => none
    cookies := fun k => if k = "unit" then some text else none, trace := [] }

/-- A cookie jar holding `unit=kelvin`. -/
def kelvinEnv : Env := unitCookieEnv "kelvin"

/-! ## Auxiliary lemmas -/

/-! ## Checks of the string functions -/

theorem jsTrim_examples :
    jsTrim "" = "" ∧ jsTrim "   " = "" ∧ jsTrim " \t\n" = "" ∧ jsTrim "  New York \n" = "New York" := by
  decide

theorem encodeURIComponent_examples :
    encodeURIComponent "London" = "London" ∧ encodeURIComponent "New York" = "New%20York" ∧
    encodeURIComponent "São Paulo" = "S%C3%A3o%20Paulo" ∧
    encodeURIComponent "a&b=c" = "a%26b%3Dc" := by
  decide

theorem weatherURL_example :
    weatherURL "London" "metric"
      = "https://api.openweathermap.org/data/2.5/weather?q=London&appid=6b0731e88a8f671d3a32faa5e8a27476&units=metric" := by
  decide

theorem getProp_name_of_not_nullish {v : JSValue} (h : isNullish v = false) :
    getProp v "name" = .ok (nameOf v) := by
  cases v <;> simp [isNullish] at h <;> simp [nameOf, getProp]

theorem not_nullish_of_truthy {v : JSValue} (h : truthy v = true) : isNullish v = false := by
  cases v <;> simp [truthy] at h <;> simp [isNullish]

theorem strictEquals_self (a : JSValue) : strictEquals a a = true := by
  cases a <;> simp [strictEquals]

theorem sameName_of_not_nullish {w fav : JSValue} (hw : isNullish w = false)
    (hf : isNullish fav = false) :
    sameName w fav = .ok (strictEquals (nameOf fav) (nameOf w)) := by
  simp [sameName, getProp_name_of_not_nullish hw, getProp_name_of_not_nullish hf]

theorem arraySome_sameName {w : JSValue} (hw : isNullish w = false) :
    ∀ {l : List JSValue}, NoNullish l →
      arraySome (sameName w) l = .ok (l.any fun fav => strictEquals (nameOf fav) (nameOf w))
  | [], _ => rfl
  | x :: xs, h => by
    have hx : isNullish x = false := h x (List.mem_cons_self _ _)
    have hxs : NoNullish xs := fun f hf => h f (List.mem_cons_of_mem _ hf)
    have ih := arraySome_sameName hw hxs
    simp only [arraySome, sameName_of_not_nullish hw hx, List.any_cons]
    cases hb : strictEquals (nameOf x) (nameOf w) <;> simp [ih]

theorem arrayFilter_otherName (c : JSValue) :
    ∀ {l : List JSValue}, NoNullish l →
      arrayFilter (otherName c) l = .ok (l.filter fun fav => !strictEquals (nameOf fav) c)
  | [], _ => rfl
  | x :: xs, h => by
    have hx : isNullish x = false := h x (List.mem_cons_self _ _)
    have hxs : NoNullish xs := fun f hf => h f (List.mem_cons_of_mem _ hf)
    have ih := arrayFilter_otherName c hxs
    simp only [arrayFilter, otherName, getProp_name_of_not_nullish hx, ih, List.filter_cons]

theorem handleAddToFavorites_eq (stringify : List JSValue → String) (s : AppState) (e : Env)
    (hwf : NoNullish s.favorites) :
    handleAddToFavorites stringify s e =
      .ok (if truthy s.weather
              && !(s.favorites.any fun fav => strictEquals (nameOf fav) (nameOf s.weather))
           then ({ s with favorites := s.favorites ++ [s.weather] },
                  e.setItem "favorites" (stringify (s.favorites ++ [s.weather])))
           else (s, e)) := by
  unfold handleAddToFavorites
  cases hw : truthy s.weather
  · simp
  · simp only [if_true, arraySome_sameName (not_nullish_of_truthy hw) hwf]
    cases hb : (s.favorites.any fun fav => strictEquals (nameOf fav) (nameOf s.weather)) <;> simp

theorem handleRemoveFromFavorites_eq (stringify : List JSValue → String) (c : JSValue)
    (s : AppState) (e : Env) (hwf : NoNullish s.favorites) :
    handleRemoveFromFavorites stringify c s e =
      .ok ({ s with
              favorites := s.favorites.filter fun fav => !strictEquals (nameOf fav) c },
            e.setItem "favorites"
              (stringify (s.favorites.filter fun fav => !strictEquals (nameOf fav) c))) := by
  simp [handleRemoveFromFavorites, arrayFilter_otherName c hwf]

theorem arraySome_eq_false {p : JSValue → Except JSError Bool} :
    ∀ {l : List JSValue}, arraySome p l = .ok false → ∀ x ∈ l, p x = .ok false
  | [], _ => fun x hx => absurd hx (List.not_mem_nil x)
  | y :: ys, h => by
    unfold arraySome at h
    cases hy : p y with
    | error err => simp [hy] at h
    | ok b =>
      cases b with
      | true => simp [hy] at h
      | false =>
        simp only [hy] at h
        intro x hx
        rcases List.mem_cons.1 hx with rfl | hx
        · exact hy
        · exact arraySome_eq_false h x hx

theorem sameName_eq_ok {w fav : JSValue} {b : Bool} (h : sameName w fav = .ok b) :
    strictEquals (nameOf fav) (nameOf w) = b ∧ isNullish fav = false ∧ isNullish w = false := by
  have hf : isNullish fav = false := by
    cases fav <;> simp [sameName, getProp] at h <;> rfl
  have hw : isNullish w = false := by
    have h2 := h
    simp only [sameName, getProp_name_of_not_nullish hf] at h2
    cases w <;> simp [getProp] at h2 <;> rfl
  rw [sameName_of_not_nullish hw hf] at h
  exact ⟨Except.ok.inj h, hf, hw⟩

theorem arrayFilter_sublist {p : JSValue → Except JSError Bool} :
    ∀ {l l1 : List JSValue}, arrayFilter p l = .ok l1 → l1.Sublist l
  | [], l1, h => by
    simp only [arrayFilter, Except.ok.injEq] at h
    subst h; exact List.Sublist.refl _
  | y :: ys, l1, h => by
    unfold arrayFilter at h
    cases hy : p y with
    | error err => simp [hy] at h
    | ok keep =>
      cases hr : arrayFilter p ys with
      | error err => simp [hy, hr] at h
      | ok rest =>
        simp only [hy, hr, Except.ok.injEq] at h
        have ih := arrayFilter_sublist hr
        subst h
        cases keep
        · simpa using List.Sublist.cons y ih
        · simpa using List.Sublist.cons₂ y ih

theorem handleAddToFavorites_ok {stringify : List JSValue → String} {s s1 : AppState}
    {e e1 : Env} (h : handleAddToFavorites stringify s e = .ok (s1, e1)) :
    s1.favorites = s.favorites ∨
      (s1.favorites = s.favorites ++ [s.weather] ∧ truthy s.weather = true ∧
        arraySome (sameName s.weather) s.favorites = .ok false) := by
  unfold handleAddToFavorites at h
  cases hw : truthy s.weather with
  | false =>
    simp only [hw, Bool.false_eq_true, if_false, Except.ok.injEq, Prod.mk.injEq] at h
    exact Or.inl (by rw [← h.1])
  | true =>
    simp only [hw, if_true] at h
    cases hs : arraySome (sameName s.weather) s.favorites with
    | error err => simp [hs] at h
    | ok b =>
      cases b with
      | true =>
        simp only [hs, Except.ok.injEq, Prod.mk.injEq] at h
        exact Or.inl (by rw [← h.1])
      | false =>
        simp only [hs, Except.ok.injEq, Prod.mk.injEq] at h
        exact Or.inr ⟨by rw [← h.1], rfl, rfl⟩

theorem handleAddToFavorites_distinct {stringify : List JSValue → String} {s s1 : AppState}
    {e e1 : Env} (hd : DistinctNames s.favorites)
    (h : handleAddToFavorites stringify s e = .ok (s1, e1)) : DistinctNames s1.favorites := by
  rcases handleAddToFavorites_ok h with h1 | ⟨h1, _, h3⟩
  · rw [h1]; exact hd
  · rw [h1]
    refine List.pairwise_append.2 ⟨hd, List.pairwise_singleton _ _, ?_⟩
    intro a ha b hb
    rw [List.mem_singleton.1 hb]
    exact (sameName_eq_ok (arraySome_eq_false h3 a ha)).1

theorem handleRemoveFromFavorites_sublist {stringify : List JSValue → String}
    {c : JSValue} {s s1 : AppState} {e e1 : Env}
    (h : handleRemoveFromFavorites stringify c s e = .ok (s1, e1)) :
    s1.favorites.Sublist s.favorites := by
  unfold handleRemoveFromFavorites at h
  cases hr : arrayFilter (otherName c) s.favorites with
  | error err => simp [hr] at h
  | ok l1 =>
    simp only [hr, Except.ok.injEq, Prod.mk.injEq] at h
    rw [← h.1]
    exact arrayFilter_sublist hr

theorem favoritesReachable_invariant {stringify : List JSValue → String} {l : List JSValue}
    (h : FavoritesReachable stringify l) : DistinctNames l ∧ NoNullish l := by
  induction h with
  | initial => exact ⟨List.Pairwise.nil, fun x hx => absurd hx (List.not_mem_nil x)⟩
  | add _ hstep ih =>
    refine ⟨handleAddToFavorites_distinct ih.1 hstep, ?_⟩
    rcases handleAddToFavorites_ok hstep with h1 | ⟨h1, h2, _⟩
    · rw [h1]; exact ih.2
    · rw [h1]
      intro fav hf
      rcases List.mem_append.1 hf with hf | hf
      · exact ih.2 fav hf
      · rw [List.mem_singleton.1 hf]; exact not_nullish_of_truthy h2
  | remove _ hstep ih =>
    have hsub := handleRemoveFromFavorites_sublist hstep
    exact ⟨List.Pairwise.sublist hsub ih.1, fun fav hf => ih.2 fav (hsub.subset hf)⟩
  | clear _ _ => exact ⟨List.Pairwise.nil, fun x hx => absurd hx (List.not_mem_nil x)⟩

theorem noNullish_sample : NoNullish sampleState.favorites := by
  intro fav hf
  simp only [sampleState, List.mem_cons, List.mem_singleton, List.not_mem_nil, or_false] at hf
  rcases hf with rfl | rfl <;> rfl

/-! ## Favourites -/

/-- C1: `handleAddToFavorites` is idempotent.  On a list of snapshots, when the
name of the current snapshot is `===` to the name of an entry (for two string
names: the same string, case included), the handler returns the state and the
outside world it was given, so the list keeps its size and order and nothing is
written to storage; and running the handler a second time on the result of a
first run, with the same current snapshot, changes nothing. -/
theorem handleAddToFavorites_idempotent (stringify : List JSValue → String) (s : AppState)
    (e : Env) (hwf : NoNullish s.favorites) :
    ((∃ fav ∈ s.favorites, sameName s.weather fav = .ok true) →
        handleAddToFavorites stringify s e = .ok (s, e)) ∧
    (∀ n : String, getProp s.weather "name" = .ok (.str n) →
        (∃ fav ∈ s.favorites, getProp fav "name" = .ok (.str n)) →
        handleAddToFavorites stringify s e = .ok (s, e)) ∧
    (∃ s1 e1, handleAddToFavorites stringify s e = .ok (s1, e1) ∧ s1.weather = s.weather ∧
        handleAddToFavorites stringify s1 e1 = .ok (s1, e1)) := by
  have key : (∃ fav ∈ s.favorites, sameName s.weather fav = .ok true) →
      handleAddToFavorites stringify s e = .ok (s, e) := by
    rintro ⟨fav, hf, hs⟩
    rw [handleAddToFavorites_eq stringify s e hwf]
    have hany : (s.favorites.any fun fav => strictEquals (nameOf fav) (nameOf s.weather))
        = true := List.any_eq_true.2 ⟨fav, hf, (sameName_eq_ok hs).1⟩
    simp [hany]
  refine ⟨key, ?_, ?_⟩
  · rintro n hn ⟨fav, hf, hfn⟩
    refine key ⟨fav, hf, ?_⟩
    simp [sameName, hn, hfn, strictEquals]
  · rw [handleAddToFavorites_eq stringify s e hwf]
    by_cases hc : (truthy s.weather
        && !(s.favorites.any fun fav => strictEquals (nameOf fav) (nameOf s.weather))) = true
    · rw [if_pos hc]
      refine ⟨_, _, rfl, rfl, ?_⟩
      simp only [Bool.and_eq_true] at hc
      have hwf1 : NoNullish (s.favorites ++ [s.weather]) := by
        intro fav hf
        rcases List.mem_append.1 hf with hf | hf
        · exact hwf fav hf
        · rw [List.mem_singleton.1 hf]; exact not_nullish_of_truthy hc.1
      rw [handleAddToFavorites_eq stringify _ _ hwf1]
      simp [strictEquals_self]
    · rw [if_neg hc]
      refine ⟨s, e, rfl, rfl, ?_⟩
      rw [handleAddToFavorites_eq stringify s e hwf, if_neg hc]

/-- Witness of C1: `London` is shown again while `London` and `Paris` are favourites. -/
theorem handleAddToFavorites_idempotent_witness :
    NoNullish sampleState.favorites ∧
    (((∃ fav ∈ sampleState.favorites, sameName sampleState.weather fav = .ok true) →
        handleAddToFavorites sampleStringify sampleState emptyEnv
          = .ok (sampleState, emptyEnv)) ∧
    (∀ n : String, getProp sampleState.weather "name" = .ok (.str n) →
        (∃ fav ∈ sampleState.favorites, getProp fav "name" = .ok (.str n)) →
        handleAddToFavorites sampleStringify sampleState emptyEnv
          = .ok (sampleState, emptyEnv)) ∧
    (∃ s1 e1, handleAddToFavorites sampleStringify sampleState emptyEnv = .ok (s1, e1) ∧
        s1.weather = sampleState.weather ∧
        handleAddToFavorites sampleStringify s1 e1 = .ok (s1, e1))) ∧
    (∃ fav ∈ sampleState.favorites, sameName sampleState.weather fav = .ok true) :=
  ⟨noNullish_sample,
    handleAddToFavorites_idempotent sampleStringify sampleState emptyEnv noNullish_sample,
    london, by simp [sampleState], rfl⟩

/-- C2: the favourites are unique by name.  When no two entries of the list have
`===` names, no two entries have after `handleAddToFavorites`, after
`handleRemoveFromFavorites` with any name, or after `handleClearFavorites`; on a
list of snapshots the first two handlers do return; and every list reachable
from the empty list has pairwise distinct names and is a list of snapshots, so
the handlers return on it. -/
theorem favorites_unique_by_name (stringify : List JSValue → String) (s : AppState) (e : Env)
    (hd : DistinctNames s.favorites) :
    (∀ s1 e1, handleAddToFavorites stringify s e = .ok (s1, e1) →
        DistinctNames s1.favorites) ∧
    (∀ cityName s1 e1, handleRemoveFromFavorites stringify cityName s e = .ok (s1, e1) →
        DistinctNames s1.favorites) ∧
    DistinctNames (handleClearFavorites s e).1.favorites ∧
    (NoNullish s.favorites →
        (∃ r, handleAddToFavorites stringify s e = .ok r) ∧
        ∀ cityName, ∃ r, handleRemoveFromFavorites stringify cityName s e = .ok r) ∧
    (∀ l, FavoritesReachable stringify l → DistinctNames l ∧ NoNullish l) :=
  ⟨fun _ _ h => handleAddToFavorites_distinct hd h,
    fun _ _ _ h => List.Pairwise.sublist (handleRemoveFromFavorites_sublist h) hd,
    List.Pairwise.nil,
    fun hwf => ⟨⟨_, handleAddToFavorites_eq stringify s e hwf⟩,
      fun c => ⟨_, handleRemoveFromFavorites_eq stringify c s e hwf⟩⟩,
    fun _ h => favoritesReachable_invariant h⟩

/-- Witness of C2: the favourites `London`, `Paris` have distinct names. -/
theorem favorites_unique_by_name_witness :
    DistinctNames sampleState.favorites ∧
    ((∀ s1 e1, handleAddToFavorites sampleStringify sampleState emptyEnv = .ok (s1, e1) →
        DistinctNames s1.favorites) ∧
    (∀ cityName s1 e1,
        handleRemoveFromFavorites sampleStringify cityName sampleState emptyEnv = .ok (s1, e1) →
        DistinctNames s1.favorites) ∧
    DistinctNames (handleClearFavorites sampleState emptyEnv).1.favorites ∧
    (NoNullish sampleState.favorites →
        (∃ r, handleAddToFavorites sampleStringify sampleState emptyEnv = .ok r) ∧
        ∀ cityName, ∃ r,
          handleRemoveFromFavorites sampleStringify cityName sampleState emptyEnv = .ok r) ∧
    (∀ l, FavoritesReachable sampleStringify l → DistinctNames l ∧ NoNullish l)) :=
  have hd : DistinctNames sampleState.favorites := by
    refine List.Pairwise.cons ?_ (List.Pairwise.cons (fun _ h => absurd h (List.not_mem_nil _))
      List.Pairwise.nil)
    intro b hb
    rw [List.mem_singleton.1 hb]
    rfl
  ⟨hd, favorites_unique_by_name sampleStringify sampleState emptyEnv hd⟩

/-- C3: on a list of snapshots, `handleRemoveFromFavorites(cityName)` returns,
and the list it leaves is the old list without the entries whose name is
`===` to `cityName`: none of its entries has that name, every other entry is
kept, in the old order, and when no entry had that name the list is the old
list. -/
theorem handleRemoveFromFavorites_removes (stringify : List JSValue → String)
    (cityName : JSValue) (s : AppState) (e : Env) (hwf : NoNullish s.favorites) :
    ∃ s1 e1, handleRemoveFromFavorites stringify cityName s e = .ok (s1, e1) ∧
      s1.favorites = s.favorites.filter (fun fav => !strictEquals (nameOf fav) cityName) ∧
      (∀ fav ∈ s1.favorites, strictEquals (nameOf fav) cityName = false) ∧
      s1.favorites.Sublist s.favorites ∧
      (∀ fav ∈ s.favorites, strictEquals (nameOf fav) cityName = false → fav ∈ s1.favorites) ∧
      ((∀ fav ∈ s.favorites, strictEquals (nameOf fav) cityName = false) →
        s1.favorites = s.favorites) := by
  refine ⟨_, _, handleRemoveFromFavorites_eq stringify cityName s e hwf, rfl, ?_, ?_, ?_, ?_⟩
  · intro fav hf
    have := (List.mem_filter.1 hf).2
    simpa using this
  · exact List.filter_sublist _
  · intro fav hf hn
    exact List.mem_filter.2 ⟨hf, by simp [hn]⟩
  · intro hall
    exact List.filter_eq_self.2 fun fav hf => by simp [hall fav hf]

/-- Witness of C3: `Paris` is removed from the favourites `London`, `Paris`. -/
theorem handleRemoveFromFavorites_removes_witness :
    NoNullish sampleState.favorites ∧
    ∃ s1 e1, handleRemoveFromFavorites sampleStringify (.str "Paris") sampleState emptyEnv
        = .ok (s1, e1) ∧
      s1.favorites
        = sampleState.favorites.filter (fun fav => !strictEquals (nameOf fav) (.str "Paris")) ∧
      (∀ fav ∈ s1.favorites, strictEquals (nameOf fav) (.str "Paris") = false) ∧
      s1.favorites.Sublist sampleState.favorites ∧
      (∀ fav ∈ sampleState.favorites, strictEquals (nameOf fav) (.str "Paris") = false →
        fav ∈ s1.favorites) ∧
      ((∀ fav ∈ sampleState.favorites, strictEquals (nameOf fav) (.str "Paris") = false) →
        s1.favorites = sampleState.favorites) :=
  ⟨noNullish_sample,
    handleRemoveFromFavorites_removes sampleStringify (.str "Paris") sampleState emptyEnv
      noNullish_sample⟩

/-- C4: persistence round trip.  Storage is the map `Env.localStorage`, and
`JSON.parse` is taken to read back the list `JSON.stringify` was given, for the
lists the handlers write.  On a list of snapshots: after `handleAddToFavorites`
the loader of the mount effect reads back the list that is in memory, whenever
the handler wrote (it appended) or the two agreed before the handler ran (it
wrote nothing); after `handleRemoveFromFavorites` it reads back the list in
memory; after `handleClearFavorites` the list in memory and the list read back
are both empty, whatever they were. -/
theorem favorites_persistence_round_trip (parse : String → Except JSError JSValue)
    (stringify : List JSValue → String) (cityName : JSValue) (s : AppState) (e : Env)
    (hwf : NoNullish s.favorites)
    (hadd : RoundTrips parse stringify (s.favorites ++ [s.weather]))
    (hrem : RoundTrips parse stringify
      (s.favorites.filter fun fav => !strictEquals (nameOf fav) cityName)) :
    (∃ s1 e1, handleAddToFavorites stringify s e = .ok (s1, e1) ∧
      ((s1.favorites ≠ s.favorites ∨ loadFavorites parse e = .ok s.favorites) →
        loadFavorites parse e1 = .ok s1.favorites)) ∧
    (∃ s1 e1, handleRemoveFromFavorites stringify cityName s e = .ok (s1, e1) ∧
      loadFavorites parse e1 = .ok s1.favorites) ∧
    ((handleClearFavorites s e).1.favorites = [] ∧
      loadFavorites parse (handleClearFavorites s e).2 = .ok []) := by
  refine ⟨?_, ?_, rfl, ?_⟩
  · rw [handleAddToFavorites_eq stringify s e hwf]
    by_cases hc : (truthy s.weather
        && !(s.favorites.any fun fav => strictEquals (nameOf fav) (nameOf s.weather))) = true
    · rw [if_pos hc]
      refine ⟨_, _, rfl, fun _ => ?_⟩
      obtain ⟨r, hr⟩ := hadd
      simp [loadFavorites, Env.setItem, hr, truthy]
    · rw [if_neg hc]
      refine ⟨s, e, rfl, fun h => ?_⟩
      rcases h with h | h
      · exact absurd rfl h
      · exact h
  · rw [handleRemoveFromFavorites_eq stringify cityName s e hwf]
    refine ⟨_, _, rfl, ?_⟩
    obtain ⟨r, hr⟩ := hrem
    simp [loadFavorites, Env.setItem, hr, truthy]
  · simp [loadFavorites, handleClearFavorites, Env.removeItem, truthy]

/-- Witness of C4: `Paris` is added to, and `London` removed from, the stored
favourite `London`. -/
theorem favorites_persistence_round_trip_witness :
    (NoNullish parisState.favorites ∧
      RoundTrips sampleParse sampleStringify (parisState.favorites ++ [parisState.weather]) ∧
      RoundTrips sampleParse sampleStringify
        (parisState.favorites.filter fun fav => !strictEquals (nameOf fav) (.str "London"))) ∧
    ((∃ s1 e1, handleAddToFavorites sampleStringify parisState storedEnv = .ok (s1, e1) ∧
      ((s1.favorites ≠ parisState.favorites
          ∨ loadFavorites sampleParse storedEnv = .ok parisState.favorites) →
        loadFavorites sampleParse e1 = .ok s1.favorites)) ∧
    (∃ s1 e1, handleRemoveFromFavorites sampleStringify (.str "London") parisState storedEnv
        = .ok (s1, e1) ∧
      loadFavorites sampleParse e1 = .ok s1.favorites) ∧
    ((handleClearFavorites parisState storedEnv).1.favorites = [] ∧
      loadFavorites sampleParse (handleClearFavorites parisState storedEnv).2 = .ok [])) ∧
    loadFavorites sampleParse storedEnv = .ok parisState.favorites :=
  have hwf : NoNullish parisState.favorites := by
    intro fav hf
    rw [List.mem_singleton.1 hf]
    rfl
  have hadd : RoundTrips sampleParse sampleStringify
      (parisState.favorites ++ [parisState.weather]) := ⟨0, rfl⟩
  have hrem : RoundTrips sampleParse sampleStringify
      (parisState.favorites.filter fun fav => !strictEquals (nameOf fav) (.str "London")) :=
    ⟨0, rfl⟩
  ⟨⟨hwf, hadd, hrem⟩,
    favorites_persistence_round_trip sampleParse sampleStringify (.str "London") parisState
      storedEnv hwf hadd hrem,
    rfl⟩

theorem handleSearch_stores_body (toText : JSValue → Except JSError String)
    (axiosGet : String → Except JSError JSValue) (s : AppState) (e : Env) (u : String)
    (body : JSValue) (hquery : jsTrim s.city ≠ "") (hunit : templateText toText s.unit = .ok u)
    (hok : axiosGet (weatherURL s.city u) = .ok body) :
    handleSearch toText axiosGet s e
      = .ok ({ s with weather := body, errorMessage := "", loading := false },
              { e with trace := e.trace ++ [Effect.httpGet (weatherURL s.city u)] }) := by
  simp [handleSearch, fetchWeatherData, truthy, hquery, hunit, hok]

theorem handleSearch_unit_without_text (toText : JSValue → Except JSError String)
    (axiosGet : String → Except JSError JSValue) (s : AppState) (e : Env) (err : JSError)
    (hquery : jsTrim s.city ≠ "") (hunit : templateText toText s.unit = .error err) :
    handleSearch toText axiosGet s e
      = .ok ({ s with
                errorMessage := "City not found. Please try again."
                openSnackbar := true
                loading := false }, e) := by
  simp [handleSearch, fetchWeatherData, truthy, hquery, hunit]

/-! ## Search -/

/-- C5: when the text of the search field is empty after `trim`, `handleSearch`
returns the state it was given with `errorMessage` set to
`Please enter a city name` and `openSnackbar` set to `true`: `loading`,
`weather` and `favorites` are as before, and the outside world is the one it
was given, so no request has been made, whatever the service is. -/
theorem handleSearch_blank_query (toText : JSValue → Except JSError String)
    (axiosGet : String → Except JSError JSValue) (s : AppState)
    (e : Env) (hblank : jsTrim s.city = "") :
    handleSearch toText axiosGet s e
        = .ok ({ s with errorMessage := "Please enter a city name", openSnackbar := true }, e) ∧
    ∀ s1 e1, handleSearch toText axiosGet s e = .ok (s1, e1) →
      s1.errorMessage = "Please enter a city name" ∧ s1.openSnackbar = true ∧
      s1.loading = s.loading ∧ s1.weather = s.weather ∧ s1.favorites = s.favorites ∧
      e1.trace = e.trace := by
  have h : handleSearch toText axiosGet s e
      = .ok ({ s with errorMessage := "Please enter a city name", openSnackbar := true }, e) := by
    simp [handleSearch, truthy, hblank]
  refine ⟨h, fun s1 e1 h1 => ?_⟩
  rw [h] at h1
  simp only [Except.ok.injEq, Prod.mk.injEq] at h1
  obtain ⟨rfl, rfl⟩ := h1
  exact ⟨rfl, rfl, rfl, rfl, rfl, rfl⟩

/-- Witness of C5: three spaces are searched for, with a service that would answer. -/
theorem handleSearch_blank_query_witness :
    jsTrim blankState.city = "" ∧
    (handleSearch sampleToText londonService blankState emptyEnv
        = .ok ({ blankState with
                  errorMessage := "Please enter a city name", openSnackbar := true },
                emptyEnv) ∧
    ∀ s1 e1, handleSearch sampleToText londonService blankState emptyEnv = .ok (s1, e1) →
      s1.errorMessage = "Please enter a city name" ∧ s1.openSnackbar = true ∧
      s1.loading = blankState.loading ∧ s1.weather = blankState.weather ∧
      s1.favorites = blankState.favorites ∧ e1.trace = emptyEnv.trace) :=
  ⟨by decide,
    handleSearch_blank_query sampleToText londonService blankState emptyEnv (by decide)⟩

/-- C6: when the text of the search field is not empty after `trim` and
`axios.get` rejects the request, with whatever error, `handleSearch` returns
(no error leaves it): one request was made, `loading` is `false`,
`errorMessage` is `City not found. Please try again.`, `openSnackbar` is
`true`, and the other hooks are as before.  The request is the one for the
text `u` of the unit, which is the unit itself when the unit is a string. -/
theorem handleSearch_request_rejected (toText : JSValue → Except JSError String)
    (axiosGet : String → Except JSError JSValue)
    (s : AppState) (e : Env) (u : String) (err : JSError) (hquery : jsTrim s.city ≠ "")
    (hunit : templateText toText s.unit = .ok u)
    (hfail : axiosGet (weatherURL s.city u) = .error err) :
    handleSearch toText axiosGet s e
      = .ok ({ s with
                errorMessage := "City not found. Please try again."
                openSnackbar := true
                loading := false },
              { e with trace := e.trace ++ [Effect.httpGet (weatherURL s.city u)] }) := by
  simp [handleSearch, fetchWeatherData, truthy, hquery, hunit, hfail]

/-- Witness of C6: `London` is searched for while the service is down. -/
theorem handleSearch_request_rejected_witness :
    (jsTrim typedState.city ≠ "" ∧
      templateText sampleToText typedState.unit = .ok "metric" ∧
      failingService (weatherURL typedState.city "metric")
        = .error (.axiosError "Request failed with status code 404")) ∧
    handleSearch sampleToText failingService typedState emptyEnv
      = .ok ({ typedState with
                errorMessage := "City not found. Please try again."
                openSnackbar := true
                loading := false },
              { emptyEnv with
                trace := emptyEnv.trace
                  ++ [Effect.httpGet (weatherURL typedState.city "metric")] }) :=
  ⟨⟨by decide, rfl, rfl⟩,
    handleSearch_request_rejected sampleToText failingService typedState emptyEnv "metric"
      (.axiosError "Request failed with status code 404") (by decide) rfl rfl⟩

/-- Counterexample to C7: the service answers the `London` request with a success
status and a body that has no `name`, `sys` or `main`; `handleSearch` stores
that body as the current snapshot and ends with an empty `errorMessage` and a
closed notification. -/
theorem handleSearch_malformed_body_stored :
    ∃ s1 e1, handleSearch sampleToText malformedService typedState emptyEnv = .ok (s1, e1) ∧
      s1.weather = malformedBody ∧
      s1.errorMessage = "" ∧
      s1.errorMessage ≠ "City not found. Please try again." ∧
      s1.openSnackbar = false ∧
      getProp malformedBody "name" = .ok .undefined ∧
      getProp malformedBody "sys" = .ok .undefined ∧
      getProp malformedBody "main" = .ok .undefined :=
  ⟨_, _, rfl, rfl, rfl, by decide, rfl, rfl, rfl, rfl⟩

/-- C7, amended: when the text of the search field is not empty after `trim` and
the service answers with a success status, `handleSearch` stores the body it
got as the current snapshot, whatever the body is, clears `errorMessage`, leaves
`openSnackbar` as it was and ends with `loading` at `false`. -/
theorem handleSearch_success_stores_any_body (toText : JSValue → Except JSError String)
    (axiosGet : String → Except JSError JSValue)
    (s : AppState) (e : Env) (u : String) (body : JSValue) (hquery : jsTrim s.city ≠ "")
    (hunit : templateText toText s.unit = .ok u)
    (hok : axiosGet (weatherURL s.city u) = .ok body) :
    handleSearch toText axiosGet s e
      = .ok ({ s with weather := body, errorMessage := "", loading := false },
              { e with trace := e.trace ++ [Effect.httpGet (weatherURL s.city u)] }) := by
  simp [handleSearch, fetchWeatherData, truthy, hquery, hunit, hok]

/-- Witness of C7, amended: the malformed body of the counterexample. -/
theorem handleSearch_success_stores_any_body_witness :
    (jsTrim typedState.city ≠ "" ∧
      templateText sampleToText typedState.unit = .ok "metric" ∧
      malformedService (weatherURL typedState.city "metric") = .ok malformedBody) ∧
    handleSearch sampleToText malformedService typedState emptyEnv
      = .ok ({ typedState with weather := malformedBody, errorMessage := "", loading := false },
              { emptyEnv with
                trace := emptyEnv.trace
                  ++ [Effect.httpGet (weatherURL typedState.city "metric")] }) :=
  ⟨⟨by decide, rfl, rfl⟩,
    handleSearch_success_stores_any_body sampleToText malformedService typedState emptyEnv
      "metric" malformedBody (by decide) rfl rfl⟩

/-- Counterexample to C8: `London` is looked up in metric units against the
service of the specification's example.  The stored snapshot is the body of the
response: it has no `unit` and no top-level `country`, and the same lookup in
imperial units stores the same value, so the snapshot does not record the unit
it was fetched in. -/
theorem handleSearch_snapshot_has_no_unit :
    ∃ s1 e1, handleSearch sampleToText londonService typedState emptyEnv = .ok (s1, e1) ∧
      s1.weather = london ∧
      getProp s1.weather "unit" = .ok .undefined ∧
      getProp s1.weather "unit" ≠ .ok (.str "metric") ∧
      getProp s1.weather "country" = .ok .undefined ∧
      ∃ s2 e2, handleSearch sampleToText londonService
            { typedState with unit := .str "imperial" } emptyEnv
          = .ok (s2, e2) ∧
        s2.weather = s1.weather := by
  refine ⟨_, _, rfl, rfl, rfl, ?_, rfl, _, _, rfl, rfl⟩
  intro h
  have h2 : (Except.ok JSValue.undefined : Except JSError JSValue) = .ok (.str "metric") := h
  cases h2

/-- C8, amended: when the text of the search field is not empty after `trim` and
the service answers the request for the current unit with a body whose `name`
is `n`, `sys.country` is `c` and `main.temp` is `t`, `handleSearch` stores that
body, unchanged, as the current snapshot: its `name`, `sys.country` and
`main.temp` are `n`, `c` and `t`, and the unit appears in the request only.  A
following `handleAddToFavorites` on an empty favourites list leaves a list with
that snapshot as its only entry, and writes it to storage. -/
theorem handleSearch_then_add_to_empty (toText : JSValue → Except JSError String)
    (axiosGet : String → Except JSError JSValue)
    (stringify : List JSValue → String) (s : AppState) (e : Env) (u : String)
    (body sys main n c t : JSValue) (hquery : jsTrim s.city ≠ "")
    (hunit : templateText toText s.unit = .ok u)
    (hok : axiosGet (weatherURL s.city u) = .ok body)
    (hname : getProp body "name" = .ok n)
    (hsys : getProp body "sys" = .ok sys) (hcountry : getProp sys "country" = .ok c)
    (hmain : getProp body "main" = .ok main) (htemp : getProp main "temp" = .ok t)
    (hempty : s.favorites = []) :
    ∃ s1 e1, handleSearch toText axiosGet s e = .ok (s1, e1) ∧
      s1.weather = body ∧
      e1.trace = e.trace ++ [Effect.httpGet (weatherURL s.city u)] ∧
      getProp s1.weather "name" = .ok n ∧
      (∃ sys1, getProp s1.weather "sys" = .ok sys1 ∧ getProp sys1 "country" = .ok c) ∧
      (∃ main1, getProp s1.weather "main" = .ok main1 ∧ getProp main1 "temp" = .ok t) ∧
      ∃ s2 e2, handleAddToFavorites stringify s1 e1 = .ok (s2, e2) ∧
        s2.favorites = [body] ∧
        e2.localStorage "favorites" = some (stringify [body]) := by
  have htruthy : truthy body = true := by
    cases body <;> simp [getProp] at hsys <;> first | rfl | (subst hsys; simp [getProp] at hcountry)
  refine ⟨_, _, handleSearch_stores_body toText axiosGet s e u body hquery hunit hok, rfl, rfl,
    hname, ⟨sys, hsys, hcountry⟩, ⟨main, hmain, htemp⟩, ?_⟩
  refine ⟨{ s with weather := body, errorMessage := "", loading := false, favorites := [body] },
    Env.setItem { e with trace := e.trace ++ [Effect.httpGet (weatherURL s.city u)] }
      "favorites" (stringify [body]), ?_, rfl, ?_⟩
  · simp [handleAddToFavorites, htruthy, hempty, arraySome]
  · simp [Env.setItem]

/-- Witness of C8, amended: the example of the specification, `London` in metric units. -/
theorem handleSearch_then_add_to_empty_witness :
    (jsTrim typedState.city ≠ "" ∧
      templateText sampleToText typedState.unit = .ok "metric" ∧
      londonService (weatherURL typedState.city "metric") = .ok london ∧
      getProp london "name" = .ok (.str "London") ∧
      getProp london "sys" = .ok (.obj 2 [("country", .str "GB")]) ∧
      getProp (.obj 2 [("country", .str "GB")]) "country" = .ok (.str "GB") ∧
      getProp london "main" = .ok (.obj 3 [("temp", .num 15)]) ∧
      getProp (.obj 3 [("temp", .num 15)]) "temp" = .ok (.num 15) ∧
      typedState.favorites = []) ∧
    ∃ s1 e1, handleSearch sampleToText londonService typedState emptyEnv = .ok (s1, e1) ∧
      s1.weather = london ∧
      e1.trace
        = emptyEnv.trace ++ [Effect.httpGet (weatherURL typedState.city "metric")] ∧
      getProp s1.weather "name" = .ok (.str "London") ∧
      (∃ sys1, getProp s1.weather "sys" = .ok sys1
        ∧ getProp sys1 "country" = .ok (.str "GB")) ∧
      (∃ main1, getProp s1.weather "main" = .ok main1
        ∧ getProp main1 "temp" = .ok (.num 15)) ∧
      ∃ s2 e2, handleAddToFavorites sampleStringify s1 e1 = .ok (s2, e2) ∧
        s2.favorites = [london] ∧
        e2.localStorage "favorites" = some (sampleStringify [london]) :=
  ⟨⟨by decide, rfl, rfl, rfl, rfl, rfl, rfl, rfl, rfl⟩,
    handleSearch_then_add_to_empty sampleToText londonService sampleStringify typedState
      emptyEnv "metric" london
      (.obj 2 [("country", .str "GB")]) (.obj 3 [("temp", .num 15)]) (.str "London")
      (.str "GB") (.num 15) (by decide) rfl rfl rfl rfl rfl rfl rfl rfl⟩

/-! ## Unit preference -/

/-- C9: `toggleUnit` is an involution on the two units.  From `metric` or
`imperial`, one call gives the other unit, two calls in a row give back the
state they started from, and the two calls add exactly two entries to the
trace: two writes of the cookie `unit`, each with the value the hook has just
been set to, which is then the text in the cookie jar. -/
theorem toggleUnit_involution (s : AppState) (e : Env)
    (hunit : s.unit = .str "metric" ∨ s.unit = .str "imperial") :
    ((s.unit = .str "metric" → (toggleUnit s e).1.unit = .str "imperial") ∧
      (s.unit = .str "imperial" → (toggleUnit s e).1.unit = .str "metric")) ∧
    (toggleUnit (toggleUnit s e).1 (toggleUnit s e).2).1 = s ∧
    ∃ u1 u2 : String,
      (toggleUnit s e).1.unit = .str u1 ∧
      (toggleUnit (toggleUnit s e).1 (toggleUnit s e).2).1.unit = .str u2 ∧
      (toggleUnit (toggleUnit s e).1 (toggleUnit s e).2).2.trace
        = e.trace ++ [Effect.setCookie "unit" u1 "/", Effect.setCookie "unit" u2 "/"] ∧
      (toggleUnit s e).2.cookies "unit" = some u1 ∧
      (toggleUnit (toggleUnit s e).1 (toggleUnit s e).2).2.cookies "unit" = some u2 := by
  obtain ⟨city, weather, favorites, unit, errorMessage, openSnackbar, loading⟩ := s
  simp only at hunit
  rcases hunit with rfl | rfl
  · refine ⟨⟨fun _ => rfl, fun h => ?_⟩, rfl, "imperial", "metric", rfl, rfl, ?_, rfl, rfl⟩
    · simp at h
    · simp [toggleUnit, Env.setCookie, strictEquals]
  · refine ⟨⟨fun h => ?_, fun _ => rfl⟩, rfl, "metric", "imperial", rfl, rfl, ?_, rfl, rfl⟩
    · simp at h
    · simp [toggleUnit, Env.setCookie, strictEquals]

/-- Witness of C9: two toggles from `metric`. -/
theorem toggleUnit_involution_witness :
    (typedState.unit = .str "metric" ∨ typedState.unit = .str "imperial") ∧
    (((typedState.unit = .str "metric"
        → (toggleUnit typedState emptyEnv).1.unit = .str "imperial") ∧
      (typedState.unit = .str "imperial"
        → (toggleUnit typedState emptyEnv).1.unit = .str "metric")) ∧
    (toggleUnit (toggleUnit typedState emptyEnv).1 (toggleUnit typedState emptyEnv).2).1
      = typedState ∧
    ∃ u1 u2 : String,
      (toggleUnit typedState emptyEnv).1.unit = .str u1 ∧
      (toggleUnit (toggleUnit typedState emptyEnv).1
        (toggleUnit typedState emptyEnv).2).1.unit = .str u2 ∧
      (toggleUnit (toggleUnit typedState emptyEnv).1
          (toggleUnit typedState emptyEnv).2).2.trace
        = emptyEnv.trace
          ++ [Effect.setCookie "unit" u1 "/", Effect.setCookie "unit" u2 "/"] ∧
      (toggleUnit typedState emptyEnv).2.cookies "unit" = some u1 ∧
      (toggleUnit (toggleUnit typedState emptyEnv).1
        (toggleUnit typedState emptyEnv).2).2.cookies "unit" = some u2) ∧
    (toggleUnit (toggleUnit typedState emptyEnv).1 (toggleUnit typedState emptyEnv).2).2.trace
      = [Effect.setCookie "unit" "imperial" "/", Effect.setCookie "unit" "metric" "/"] :=
  ⟨Or.inl rfl, toggleUnit_involution typedState emptyEnv (Or.inl rfl), by decide⟩

/-- Counterexample to C10: with the cookie `unit=kelvin`, which the cookie
library hands over as the string `kelvin`, the unit restored at startup is
`kelvin`, which is neither `metric` nor `imperial`. -/
theorem initial_unit_kelvin :
    sampleReadCookie "kelvin" = .str "kelvin" ∧
    (App sampleReadCookie kelvinEnv).unit = .str "kelvin" ∧
    (App sampleReadCookie kelvinEnv).unit ≠ .str "metric" ∧
    (App sampleReadCookie kelvinEnv).unit ≠ .str "imperial" ∧
    strictEquals (App sampleReadCookie kelvinEnv).unit (.str "metric") = false ∧
    strictEquals (App sampleReadCookie kelvinEnv).unit (.str "imperial") = false := by
  refine ⟨rfl, rfl, ?_, ?_, rfl, rfl⟩
  · intro h
    have h2 : JSValue.str "kelvin" = .str "metric" := h
    simp at h2
  · intro h
    have h2 : JSValue.str "kelvin" = .str "imperial" := h
    simp at h2

/-- C10, amended: the unit restored at startup is the value `useCookies` hands
over for the cookie `unit`, that is what the cookie library reads from the
persisted text, whenever that value is truthy: `metric` or `imperial` when the
cookie reads as that string, and any other truthy value as it is.  It is
`metric` when the cookie is absent or reads as a falsy value (`undefined`,
`null`, `false`, `0` or the empty string). -/
theorem initial_unit_restored (readCookie : String → JSValue) (e : Env) :
    (e.cookies "unit" = none → (App readCookie e).unit = .str "metric") ∧
    (∀ text, e.cookies "unit" = some text →
      (truthy (readCookie text) = true → (App readCookie e).unit = readCookie text) ∧
      (truthy (readCookie text) = false → (App readCookie e).unit = .str "metric") ∧
      (readCookie text = .str "metric" → (App readCookie e).unit = .str "metric") ∧
      (readCookie text = .str "imperial" → (App readCookie e).unit = .str "imperial") ∧
      (readCookie text = .undefined ∨ readCookie text = .null ∨ readCookie text = .bool false
          ∨ readCookie text = .num 0 ∨ readCookie text = .str "" →
        (App readCookie e).unit = .str "metric")) := by
  refine ⟨fun h => ?_, fun text h => ⟨fun ht => ?_, fun hf => ?_, fun hm => ?_, fun hi => ?_,
    fun hz => ?_⟩⟩
  · simp [App, initialUnit, cookiesUnit, h, truthy]
  · simp [App, initialUnit, cookiesUnit, h, ht]
  · simp [App, initialUnit, cookiesUnit, h, hf]
  · simp [App, initialUnit, cookiesUnit, h, hm]
  · simp [App, initialUnit, cookiesUnit, h, hi, truthy]
  · rcases hz with hz | hz | hz | hz | hz <;> simp [App, initialUnit, cookiesUnit, h, hz, truthy]

/-- Instances of C10, amended, with a library that parses JSON: the cookie texts
`metric`, `kelvin`, `0`, `false`, `null` and a quoted `imperial`, and no cookie. -/
theorem initial_unit_restored_examples :
    (App sampleReadCookie (unitCookieEnv "metric")).unit = .str "metric" ∧
    (App sampleReadCookie (unitCookieEnv "kelvin")).unit = .str "kelvin" ∧
    (App sampleReadCookie (unitCookieEnv "0")).unit = .str "metric" ∧
    (App sampleReadCookie (unitCookieEnv "false")).unit = .str "metric" ∧
    (App sampleReadCookie (unitCookieEnv "null")).unit = .str "metric" ∧
    (App sampleReadCookie (unitCookieEnv "\x22imperial\x22")).unit = .str "imperial" ∧
    (App sampleReadCookie emptyEnv).unit = .str "metric" :=
  ⟨((initial_unit_restored sampleReadCookie (unitCookieEnv "metric")).2 "metric" rfl).2.2.1 rfl,
    ((initial_unit_restored sampleReadCookie (unitCookieEnv "kelvin")).2 "kelvin" rfl).1 rfl,
    ((initial_unit_restored sampleReadCookie (unitCookieEnv "0")).2 "0" rfl).2.1 rfl,
    ((initial_unit_restored sampleReadCookie (unitCookieEnv "false")).2 "false" rfl).2.1 rfl,
    ((initial_unit_restored sampleReadCookie (unitCookieEnv "null")).2 "null" rfl).2.1 rfl,
    ((initial_unit_restored sampleReadCookie (unitCookieEnv "\x22imperial\x22")).2
      "\x22imperial\x22" rfl).2.2.2.1 rfl,
    (initial_unit_restored sampleReadCookie emptyEnv).1 rfl⟩

end Wetherapp
